import Mathlib

/-!
Verification development for the "claude-code-on-the-cloud" web application.

This file gives a shallow embedding, in Lean, of the parts of the TypeScript
source that the specification's claims are about:

* `src/lib/ai-tools-config.ts` — the tool registry (install commands,
  prompt/resume/continue argument shapes, per-tool `extractSessionId`);
* the streaming setup route (`POST`, file `src/unnamed/part_003`) — sandbox
  creation, tool installation, verification run, and the emitted stream of
  `text-delta` / `data` frames, together with a trace of the external side
  effects (sandbox creation, commands run);
* `src/app/api/sandbox/[id]/terminal/route.ts` — the whitespace split of the
  terminal command;
* `src/hooks/use-session-storage.ts` — the bounded, recency-ordered session
  store;
* `src/hooks/use-sandbox-storage.ts` — the browser-side reads that fall back
  to a default on absent or unparseable persisted values.

JavaScript dynamic values are modelled by the inductive type `JSVal`;
`JSON.parse` (which can throw on arbitrary strings) is modelled as an oracle
`String → Option JSVal` where `none` stands for a parse exception.  External
calls of the setup route (sandbox creation, `runCommand`) are modelled by a
`SetupWorld` oracle whose components are `Except String _` values, `Except.error`
standing for a thrown exception whose message is the carried string.
-/

/-! ## JavaScript value model -/

/-- A JSON-like JavaScript runtime value: the values that can appear as the
result of `JSON.parse`, plus plain strings (the `unknown` inputs accepted by
`extractSessionId`).  Objects are association lists of fields. -/
inductive JSVal where
  | str (s : String)
  | num (n : Int)
  | bool (b : Bool)
  | null
  | arr (elems : List JSVal)
  | obj (fields : List (String × JSVal))

/-- JavaScript truthiness of a value (`NaN` is not representable here;
`undefined` is modelled as an absent `Option`, see `jsTruthyOpt`). -/
def jsTruthy : JSVal → Bool
  | .str s => !(s == "")
  | .num n => !(n == 0)
  | .bool b => b
  | .null => false
  | .arr _ => true
  | .obj _ => true

/-- `typeof v === "object"` (true for objects, arrays and `null`). -/
def jsTypeofObject : JSVal → Bool
  | .obj _ => true
  | .arr _ => true
  | .null => true
  | _ => false

/-- Field lookup, `v[k]`; `none` models `undefined`.  On arrays only decimal
index keys resolve, as for JavaScript's string property access on arrays. -/
def jsGetProp : JSVal → String → Option JSVal
  | .obj fields, k => (fields.find? fun kv => kv.1 == k).map fun kv => kv.2
  | .arr elems, k => k.toNat?.bind fun i => elems.get? i
  | _, _ => none

/-- The `in` operator restricted to data properties: `k in v`. -/
def jsHasProp (v : JSVal) (k : String) : Bool :=
  (jsGetProp v k).isSome

/-- `String(elem)` for an array element inside `Array.prototype.join`:
`null` (and `undefined`) become the empty string there. -/
def jsElemToEmpty : JSVal → Bool
  | .null => true
  | _ => false

mutual

/-- JavaScript's `String(v)` conversion.  Arrays stringify as the join of
their elements with `","` (with `null` elements contributing `""`), and plain
objects as `"[object Object]"`. -/
def jsString : JSVal → String
  | .str s => s
  | .num n => toString n
  | .bool true => "true"
  | .bool false => "false"
  | .null => "null"
  | .obj _ => "[object Object]"
  | .arr elems => jsStringList elems

/-- Join of array elements with `","`, as in `Array.prototype.toString`. -/
def jsStringList : List JSVal → String
  | [] => ""
  | [v] => if jsElemToEmpty v then "" else jsString v
  | v :: rest =>
      (if jsElemToEmpty v then "" else jsString v) ++ "," ++ jsStringList rest

end

/-- `String(x)` where `x : Option JSVal` may be `undefined`. -/
def jsStringOpt : Option JSVal → String
  | some v => jsString v
  | none => "undefined"

/-- Truthiness of a possibly-`undefined` value. -/
def jsTruthyOpt : Option JSVal → Bool
  | some v => jsTruthy v
  | none => false

/-! ## Tool registry (`src/lib/ai-tools-config.ts`) -/

/-- `export type AITool = 'claude-code' | 'cursor-cli'`. -/
inductive AITool where
  | claudeCode
  | cursorCli
deriving DecidableEq, Repr

/-- The string id of a tool, as it appears in requests and storage keys. -/
def AITool.id : AITool → String
  | .claudeCode => "claude-code"
  | .cursorCli => "cursor-cli"

/-- `installation: { command, args, sudo }` of a tool config. -/
structure Installation where
  command : String
  args : List String
  sudo' : Bool
deriving DecidableEq, Repr

/-- The fields of `AIToolConfig` that the setup route consumes.
`extractSessionId` takes the `JSON.parse` oracle first, because the
TypeScript closure calls `JSON.parse` on string inputs. -/
structure AIToolConfig where
  name : String
  displayName : String
  apiKeyLabel : String
  apiKeyEnvVar : String
  installation : Installation
  helpCommandArgs : List String
  promptCommandArgs : List String
  resumeCommand : String → List String
  continueCommand : List String
  extractSessionId : (String → Option JSVal) → JSVal → Option String

/-- The scan of `claude-code`'s `extractSessionId` over an array of messages:
return `String(message.session_id)` for the first element that is a non-null
object carrying `session_id`. -/
def claudeScanMessages : List JSVal → Option String
  | [] => none
  | m :: rest =>
      if jsTruthy m && jsTypeofObject m && jsHasProp m "session_id" then
        some (jsStringOpt (jsGetProp m "session_id"))
      else
        claudeScanMessages rest

/-- The body of `claude-code`'s `extractSessionId` after the string case has
been resolved: array scan, else single-object `session_id` lookup, else null. -/
def claudeExtractCore (response : JSVal) : Option String :=
  match response with
  | .arr msgs => claudeScanMessages msgs
  | v =>
      if jsTruthy v && jsTypeofObject v && jsHasProp v "session_id" then
        some (jsStringOpt (jsGetProp v "session_id"))
      else
        none

/-- `claude-code`'s `extractSessionId`: a string input is first run through
`JSON.parse` (the `parse` oracle); a parse exception returns `null`. -/
def claudeExtractSessionId (parse : String → Option JSVal) (response : JSVal) :
    Option String :=
  match response with
  | .str s =>
      match parse s with
      | none => none
      | some v => claudeExtractCore v
  | v => claudeExtractCore v

/-- `String(obj.chat_id || obj.id)` for `cursor-cli`. -/
def cursorChatIdString (v : JSVal) : String :=
  if jsTruthyOpt (jsGetProp v "chat_id") then
    jsStringOpt (jsGetProp v "chat_id")
  else
    jsStringOpt (jsGetProp v "id")

/-- The scan of `cursor-cli`'s `extractSessionId` over an array of messages. -/
def cursorScanMessages : List JSVal → Option String
  | [] => none
  | m :: rest =>
      if jsTruthy m && jsTypeofObject m && (jsHasProp m "chat_id" || jsHasProp m "id") then
        some (cursorChatIdString m)
      else
        cursorScanMessages rest

/-- The body of `cursor-cli`'s `extractSessionId` after the string case: the
single-object branch is checked before the array branch, as in the source. -/
def cursorExtractCore (response : JSVal) : Option String :=
  if jsTruthy response && jsTypeofObject response &&
      (jsHasProp response "chat_id" || jsHasProp response "id") then
    some (cursorChatIdString response)
  else
    match response with
    | .arr msgs => cursorScanMessages msgs
    | _ => none

/-- `cursor-cli`'s `extractSessionId`. -/
def cursorExtractSessionId (parse : String → Option JSVal) (response : JSVal) :
    Option String :=
  match response with
  | .str s =>
      match parse s with
      | none => none
      | some v => cursorExtractCore v
  | v => cursorExtractCore v

/-- `AI_TOOLS_CONFIG`, the static registry of the two supported tools. -/
def AI_TOOLS_CONFIG : AITool → AIToolConfig
  | .claudeCode =>
      { name := "claude-code"
        displayName := "Claude Code"
        apiKeyLabel := "Anthropic API Key"
        apiKeyEnvVar := "ANTHROPIC_API_KEY"
        installation :=
          { command := "bash"
            args := ["-c", "npm install -g @anthropic-ai/claude-code"]
            sudo' := true }
        helpCommandArgs := ["--help"]
        promptCommandArgs :=
          ["-p", "hello", "--output-format", "json", "--dangerously-skip-permissions"]
        resumeCommand := fun sessionId =>
          ["--resume", sessionId, "--output-format", "json",
           "--dangerously-skip-permissions"]
        continueCommand :=
          ["--continue", "--output-format", "json", "--dangerously-skip-permissions"]
        extractSessionId := claudeExtractSessionId }
  | .cursorCli =>
      { name := "cursor-cli"
        displayName := "Cursor CLI"
        apiKeyLabel := "Cursor API Key"
        apiKeyEnvVar := "CURSOR_API_KEY"
        installation :=
          { command := "bash"
            args := ["-c", "curl -fsSL https://cursor.com/install | bash"]
            sudo' := true }
        helpCommandArgs := ["--help"]
        promptCommandArgs :=
          ["-a", "CURSOR_API_KEY_PLACEHOLDER", "-p", "hello", "--output-format", "json"]
        resumeCommand := fun sessionId =>
          ["-a", "CURSOR_API_KEY_PLACEHOLDER", "--resume", sessionId,
           "--output-format", "json"]
        continueCommand :=
          ["-a", "CURSOR_API_KEY_PLACEHOLDER", "resume", "--output-format", "json"]
        extractSessionId := cursorExtractSessionId }

/-- `getAIToolConfig`. -/
def getAIToolConfig (tool : AITool) : AIToolConfig :=
  AI_TOOLS_CONFIG tool

/-- `getResumeCommand`. -/
def getResumeCommand (tool : AITool) (sessionId : String) : List String :=
  (getAIToolConfig tool).resumeCommand sessionId

/-- `getContinueCommand`. -/
def getContinueCommand (tool : AITool) : List String :=
  (getAIToolConfig tool).continueCommand

/-- `extractSessionIdFromResponse`, with the `JSON.parse` oracle explicit. -/
def extractSessionIdFromResponse (tool : AITool) (parse : String → Option JSVal)
    (response : JSVal) : Option String :=
  (getAIToolConfig tool).extractSessionId parse response

/-- The setup route's tool validation,
`["claude-code", "cursor-cli"].includes(tool)` followed by `tool as AITool`. -/
def parseAITool (s : String) : Option AITool :=
  if s = "claude-code" then some .claudeCode
  else if s = "cursor-cli" then some .cursorCli
  else none

/-! ## Constants (`src/lib/constants.ts`) -/

def DEFAULT_SANDBOX_ALIVE_TIME_MS : Nat := 5 * 60 * 1000

def MIN_SANDBOX_ALIVE_TIME_MS : Nat := 1 * 60 * 1000

def MAX_SANDBOX_ALIVE_TIME_MS : Nat := 10 * 60 * 1000

/-- `export const SANDBOX_ALIVE_TIME_MS = DEFAULT_SANDBOX_ALIVE_TIME_MS`. -/
def SANDBOX_ALIVE_TIME_MS : Nat := DEFAULT_SANDBOX_ALIVE_TIME_MS

/-! ## Streaming setup route (`POST`, `src/unnamed/part_003`)

The route is embedded as a function from the parsed request body and a world
oracle to the list of emitted stream frames paired with the trace of external
side effects.  `Except.error m` for the body models `request.json()` throwing;
for the world components it models the corresponding external call throwing an
exception with message `m`.  An effect is recorded when the call is attempted.
-/

/-- The destructured request body
`const { apiKey, tool = "cursor-cli", sessionId, prompt = "hello", resumeSession = false } = body`.
`none` models an absent (or `null`/`undefined`) field; the `tool` and `prompt`
destructuring defaults are applied where the source applies them.
`aliveTimeMinutes` is sent by the client (`create-sandbox.tsx`) but never read
by this route. -/
structure SetupBody where
  apiKey : Option String
  tool : Option String
  sessionId : Option String
  prompt : Option String
  resumeSession : Bool
  aliveTimeMinutes : Option Nat
deriving DecidableEq, Repr

/-- The result of `sandbox.runCommand` together with its awaited
`stdout()`/`stderr()`. -/
structure CmdResult where
  exitCode : Int
  stdout : String
  stderr : String
deriving DecidableEq, Repr

/-- Oracle for the external calls made by the setup route. -/
structure SetupWorld where
  /-- `Sandbox.create(...)`: the assigned sandbox id, or a thrown exception. -/
  create : Except String String
  /-- The install `runCommand` (with its stdout/stderr awaits). -/
  install : Except String CmdResult
  /-- The verification/prompt `runCommand` (with its stdout/stderr awaits). -/
  verify : Except String CmdResult
  /-- `JSON.parse` on the verification stdout; `none` models a throw. -/
  parse : String → Option JSVal
  /-- `new Date().toISOString()` at completion time. -/
  nowIso : String

/-- `session: { id, resumed, requestedSessionId }` of the final descriptor. -/
structure SessionMeta where
  id : Option String
  resumed : Bool
  requestedSessionId : Option String
deriving DecidableEq, Repr

/-- `promptOutput` inside the verification results. -/
structure PromptOutput where
  stdout : String
  stderr : String
  exitCode : Int
  parsedJson : Option JSVal
  sessionId : Option String

/-- The `cursorCLI` half of `verificationResults`. -/
structure CursorCLIStatus where
  installed : Bool
  version : Option String
  error : Option String
  promptOutput : Option PromptOutput

/-- The `environment` half of `verificationResults`. -/
structure EnvStatus where
  configured : Bool
  error : Option String
deriving DecidableEq, Repr

/-- `verificationResults` as initialised and mutated by the route. -/
structure VerificationResults where
  cursorCLI : CursorCLIStatus
  environment : EnvStatus

/-- The final sandbox descriptor `info` sent in the terminal frame. -/
structure SandboxInfo where
  id : String
  createdAt : String
  timeoutMs : Nat
  cursorCLI : VerificationResults
  provider : String
  tool : String
  toolName : String
  initialPrompt : String
  session : SessionMeta

/-- Payload of a terminal `data` frame: `{success:true, sandbox}` or
`{success:false, error}`. -/
inductive DataPayload where
  | sandboxOk (sandbox : SandboxInfo)
  | errorPayload (error : String)

/-- One SSE frame `data: <json>\n\n`: either `{type:'text-delta', id, delta}`
or `{type:'data', id, data}`. -/
inductive Frame where
  | textDelta (id : String) (delta : String)
  | data (id : String) (payload : DataPayload)

/-- An external side effect of the route, in order of occurrence. -/
inductive Effect where
  | createSandbox (vcpus : Nat) (runtime : String) (timeoutMs : Nat)
  | runCmd (cmd : String) (args : List String) (sudo' : Bool)
deriving DecidableEq, Repr

/-- `!apiKey || typeof apiKey !== "string"`, negated: the request carries a
non-empty API key string (missing, `null` and `""` are all falsy). -/
def apiKeyPresent (b : SetupBody) : Bool :=
  match b.apiKey with
  | none => false
  | some s => !(s == "")

/-- The tool string after the destructuring default. -/
def toolStrOf (b : SetupBody) : String :=
  b.tool.getD "cursor-cli"

/-- The prompt after the destructuring default. -/
def promptOf (b : SetupBody) : String :=
  b.prompt.getD "hello"

/-- Truthiness of the request's `sessionId` (`null`/absent and `""` are
falsy). -/
def truthyStr : Option String → Bool
  | none => false
  | some s => !(s == "")

/-- Both validation checks of the route pass. -/
def validBody (b : SetupBody) : Bool :=
  apiKeyPresent b && (parseAITool (toolStrOf b)).isSome

/-- The `commandArgs` decision of the route (lines 146–158):
resume-specific, continue-latest, or new-prompt argument shape. -/
def chooseCommandArgs (tool : AITool) (resumeSession : Bool)
    (sessionId : Option String) (prompt : String) : List String :=
  if resumeSession && truthyStr sessionId then
    getResumeCommand tool (sessionId.getD "") ++ ["-p", prompt]
  else if resumeSession then
    getContinueCommand tool ++ ["-p", prompt]
  else
    (getAIToolConfig tool).promptCommandArgs.map fun arg =>
      if arg == "hello" then prompt else arg

/-- How the decided `commandArgs` are turned into the actual `runCommand`
invocation: Claude Code goes through `bash -c` with the API key exported as an
environment variable; Cursor CLI is executed directly with the placeholder
token substituted by the API key. -/
def buildInvocation (tool : AITool) (cfg : AIToolConfig) (apiKey : String)
    (commandArgs : List String) : String × List String × Bool :=
  match tool with
  | .claudeCode =>
      ("bash",
       ["-c",
        "export " ++ cfg.apiKeyEnvVar ++ "=\"" ++ apiKey ++
          "\" && npx @anthropic-ai/claude-code " ++ String.intercalate " " commandArgs],
       false)
  | .cursorCli =>
      ("cursor-agent",
       commandArgs.map fun arg =>
         if arg == "CURSOR_API_KEY_PLACEHOLDER" then apiKey else arg,
       true)

/-- The sandbox-creation effect: `Sandbox.create({resources:{vcpus:2},
runtime:"node22", timeout: SANDBOX_ALIVE_TIME_MS})`.  Note the timeout is the
fixed constant: the route never reads `aliveTimeMinutes`. -/
def createEffect : Effect :=
  .createSandbox 2 "node22" SANDBOX_ALIVE_TIME_MS

/-- The install command effect. -/
def installEffect (cfg : AIToolConfig) : Effect :=
  .runCmd cfg.installation.command cfg.installation.args cfg.installation.sudo'

/-- The verification command effect. -/
def invokeEffect (tool : AITool) (cfg : AIToolConfig) (apiKey : String)
    (resumeSession : Bool) (sessionId : Option String) (prompt : String) : Effect :=
  match buildInvocation tool cfg apiKey
      (chooseCommandArgs tool resumeSession sessionId prompt) with
  | (cmd, args, sudo') => .runCmd cmd args sudo'

/-- The two frames of the outer `catch` (setup-failed delta, then the
`error-info` terminal data frame). -/
def outerCatchFrames (message : String) : List Frame :=
  [.textDelta "error"
      ("❌ **Setup failed**: " ++ message ++ "\n\nPlease try again or check your API key."),
   .data "error-info" (.errorPayload message)]

/-- The two progress frames emitted before `Sandbox.create`. -/
def headerFrames (cfg : AIToolConfig) : List Frame :=
  [.textDelta "setup-tasks" ("## Setting up " ++ cfg.displayName ++ " Environment\n\n"),
   .textDelta "setup-tasks"
      "### 🚀 Creating Vercel Sandbox\n\nInitializing sandbox environment...\n\n"]

/-- The frame confirming sandbox creation. -/
def createdFrame (sid : String) : Frame :=
  .textDelta "setup-tasks"
    ("✅ **Sandbox created successfully** (ID: `" ++ sid ++ "`)\n\n")

/-- The frame announcing the install step. -/
def installingFrame (cfg : AIToolConfig) : Frame :=
  .textDelta "setup-tasks"
    ("### 📦 Installing " ++ cfg.displayName ++ "\n\nDownloading and configuring " ++
      cfg.displayName ++ "...\n\n")

/-- The frame reporting the install exit code: success, or the non-fatal
warning for a non-zero exit code. -/
def installResultFrame (cfg : AIToolConfig) (ir : CmdResult) : Frame :=
  .textDelta "setup-tasks"
    (if ir.exitCode == 0 then
      "✅ **" ++ cfg.displayName ++ " installed successfully**\n\n"
     else
      "⚠️ **Installation completed with warnings** (exit code: " ++
        toString ir.exitCode ++ ")\n\n")

/-- The frame announcing the verification step. -/
def testingFrame (cfg : AIToolConfig) (resumeSession : Bool) : Frame :=
  .textDelta "setup-tasks"
    ("### 🧪 Testing " ++ cfg.displayName ++ " Connection\n\n" ++
      (if resumeSession then "Resuming previous session..." else "Establishing new session...") ++
      "\n\n")

/-- The frame reporting the verification outcome. -/
def verifyResultFrame (cfg : AIToolConfig) (prompt : String) (pr : CmdResult) : Frame :=
  .textDelta "setup-tasks"
    (if pr.exitCode == 0 then
      "✅ **" ++ cfg.displayName ++ " is working perfectly!**\n\n🔗 Tested with prompt: \"" ++
        prompt ++ "\"\n\n"
     else
      "❌ **" ++ cfg.displayName ++ " test failed** (exit code: " ++
        toString pr.exitCode ++ ")\n\n")

/-- The frame of the inner `catch` (exception during install/verification). -/
def setupErrorFrame (message : String) : Frame :=
  .textDelta "setup-tasks" ("❌ **Error during setup**: " ++ message ++ "\n\n")

/-- The completion frame. -/
def completeFrame (cfg : AIToolConfig) : Frame :=
  .textDelta "setup-tasks"
    ("### 🎉 Setup Complete!\n\nYour " ++ cfg.displayName ++
      " environment is ready to use. You can now start chatting!\n\n---\n\n")

/-- `verificationResults` as initialised, with `error` possibly filled in by
the inner `catch` (`none` for the untouched initialisation). -/
def vrInit (err : Option String) : VerificationResults :=
  { cursorCLI := { installed := false, version := none, error := err, promptOutput := none }
    environment := { configured := false, error := none } }

/-- The failure error string of the verification branch:
`` `${displayName} test failed (exit ${code}): ${stderr || stdout || "no output"}` ``. -/
def testFailedError (displayName : String) (pr : CmdResult) : String :=
  displayName ++ " test failed (exit " ++ toString pr.exitCode ++ "): " ++
    (if !(pr.stderr == "") then pr.stderr
     else if !(pr.stdout == "") then pr.stdout
     else "no output")

/-- `verificationResults` after a verification run with exit code 0. -/
def vrSuccess (cfg : AIToolConfig) (pr : CmdResult) (parsed : Option JSVal)
    (extracted : Option String) : VerificationResults :=
  { cursorCLI :=
      { installed := true
        version := some (cfg.displayName ++ " working (exit " ++ toString pr.exitCode ++ ")")
        error := none
        promptOutput := some
          { stdout := pr.stdout
            stderr := pr.stderr
            exitCode := pr.exitCode
            parsedJson := parsed
            -- `...(extractedSessionId && { sessionId: extractedSessionId })`:
            -- the field is only present when the extracted id is truthy.
            sessionId := if truthyStr extracted then extracted else none } }
    environment := { configured := true, error := none } }

/-- `verificationResults` after a verification run with non-zero exit code. -/
def vrFailure (cfg : AIToolConfig) (pr : CmdResult) : VerificationResults :=
  { cursorCLI :=
      { installed := false, version := none
        error := some (testFailedError cfg.displayName pr)
        promptOutput := none }
    environment := { configured := false, error := none } }

/-- Result of the install/verify phase (the inner `try`): the frames it
emits, the commands it attempts, and the state it leaves behind. -/
structure StepResult where
  frames : List Frame
  effects : List Effect
  vr : VerificationResults
  extracted : Option String

/-- The install/verify phase of the route (the inner `try`/`catch`): the tool
is installed (a non-zero exit is only a warning), the verification command is
decided and run, its stdout is JSON-parsed when non-empty, and a session id
extracted from the parse; any exception is caught and recorded in
`verificationResults.cursorCLI.error` without aborting the run. -/
def runSetupSteps (tool : AITool) (cfg : AIToolConfig) (apiKey : String)
    (prompt : String) (resumeSession : Bool) (sessionId : Option String)
    (w : SetupWorld) : StepResult :=
  match w.install with
  | .error m =>
      { frames := [installingFrame cfg, setupErrorFrame m]
        effects := [installEffect cfg]
        vr := vrInit (some m)
        extracted := none }
  | .ok ir =>
      match w.verify with
      | .error m =>
          { frames := [installingFrame cfg, installResultFrame cfg ir,
                       testingFrame cfg resumeSession, setupErrorFrame m]
            effects := [installEffect cfg,
                        invokeEffect tool cfg apiKey resumeSession sessionId prompt]
            vr := vrInit (some m)
            extracted := none }
      | .ok pr =>
          let parsed : Option JSVal :=
            if pr.stdout == "" then none else w.parse pr.stdout
          let extracted : Option String :=
            parsed.bind (cfg.extractSessionId w.parse)
          { frames := [installingFrame cfg, installResultFrame cfg ir,
                       testingFrame cfg resumeSession, verifyResultFrame cfg prompt pr]
            effects := [installEffect cfg,
                        invokeEffect tool cfg apiKey resumeSession sessionId prompt]
            vr := if pr.exitCode == 0 then vrSuccess cfg pr parsed extracted
                  else vrFailure cfg pr
            -- `extractedSessionId` is assigned before the exit-code check and
            -- flows into the descriptor in both branches.
            extracted := extracted }

/-- The final descriptor `info` (route lines 265–279). -/
def mkInfo (sid nowIso toolStr toolName initialPrompt : String)
    (resumed : Bool) (requestedSessionId : Option String)
    (vr : VerificationResults) (extracted : Option String) : SandboxInfo :=
  { id := sid
    createdAt := nowIso
    timeoutMs := SANDBOX_ALIVE_TIME_MS
    cursorCLI := vr
    provider := "vercel"
    tool := toolStr
    toolName := toolName
    initialPrompt := initialPrompt
    session := { id := extracted, resumed := resumed, requestedSessionId := requestedSessionId } }

/-- The whole streaming setup route: frames emitted (in order) and external
effects attempted (in order). -/
def setupPOST (body : Except String SetupBody) (w : SetupWorld) :
    List Frame × List Effect :=
  match body with
  | .error m => (outerCatchFrames m, [])
  | .ok b =>
      if !apiKeyPresent b then
        ([.textDelta "error" "❌ API key is required"], [])
      else
        match parseAITool (toolStrOf b) with
        | none => ([.textDelta "error" "❌ Valid AI tool selection is required"], [])
        | some tool =>
            let cfg := getAIToolConfig tool
            let apiKey := b.apiKey.getD ""
            let prompt := promptOf b
            match w.create with
            | .error m => (headerFrames cfg ++ outerCatchFrames m, [createEffect])
            | .ok sid =>
                let step := runSetupSteps tool cfg apiKey prompt b.resumeSession b.sessionId w
                let info := mkInfo sid w.nowIso (toolStrOf b) cfg.displayName prompt
                    b.resumeSession b.sessionId step.vr step.extracted
                (headerFrames cfg ++ [createdFrame sid] ++ step.frames ++
                   [completeFrame cfg, .data "sandbox-info" (.sandboxOk info)],
                 createEffect :: step.effects)

/-- Frames emitted by a request. -/
def framesOf (body : Except String SetupBody) (w : SetupWorld) : List Frame :=
  (setupPOST body w).1

/-- Effects attempted by a request. -/
def effectsOf (body : Except String SetupBody) (w : SetupWorld) : List Effect :=
  (setupPOST body w).2

/-- The success flag of a `data` frame (`none` for `text-delta` frames). -/
def dataSuccess : Frame → Option Bool
  | .data _ (.sandboxOk _) => some true
  | .data _ (.errorPayload _) => some false
  | .textDelta _ _ => none

/-- The sandbox descriptor carried by a `data` frame, if any. -/
def frameSandbox : Frame → Option SandboxInfo
  | .data _ (.sandboxOk i) => some i
  | _ => none

/-- A request that the route rejects at validation (missing/blank API key or
unrecognised tool) before doing anything else. -/
def rejectedRequest : Except String SetupBody → Bool
  | .error _ => false
  | .ok b => !validBody b

/-! ## Terminal relay command parsing
(`src/app/api/sandbox/[id]/terminal/route.ts`, lines 38–42) -/

/-- Tokenizer of `command.split(/\s+/)`.  The flag is `true` inside a token
(`cur` holds the reversed characters read so far) and `false` inside a
whitespace run; a run at the end of the input contributes a final empty
token, as `String.prototype.split` does. -/
def splitAux : List Char → List Char → Bool → List String
  | [], cur, true => [String.mk cur.reverse]
  | [], _, false => [""]
  | c :: rest, cur, true =>
      if c.isWhitespace then String.mk cur.reverse :: splitAux rest [] false
      else splitAux rest (c :: cur) true
  | c :: rest, _, false =>
      if c.isWhitespace then splitAux rest [] false
      else splitAux rest [c] true

/-- `s.split(/\s+/)`: the string is cut at each maximal whitespace run; runs
touching either end of the string contribute empty tokens, and the empty
string yields `[""]` (JavaScript semantics).  `Char.isWhitespace` covers the
ASCII whitespace of `\s`; the Unicode-only whitespace classes are out of
scope. -/
def jsSplitWhitespace (s : String) : List String :=
  match s.toList with
  | [] => [""]
  | c :: rest =>
      if c.isWhitespace then "" :: splitAux rest [] false
      else splitAux rest [c] true

/-- JavaScript `command.trim()`: strip whitespace from both ends (modelled on
the character list, so it evaluates inside the kernel). -/
def jsTrim (s : String) : String :=
  String.mk (((s.toList.dropWhile Char.isWhitespace).reverse.dropWhile
    Char.isWhitespace).reverse)

/-- The terminal route's command parsing:
`trim`, split on `/\s+/`, `cmd = parts[0]`, `args = parts.slice(1)`. -/
def parseCommand (command : String) : String × List String :=
  let trimmedCommand := jsTrim command
  let parts := jsSplitWhitespace trimmedCommand
  (parts.headD "", parts.drop 1)

/-! ## Session store (`src/hooks/use-session-storage.ts`)

The persisted values are modelled at the typed level (`List SessionInfo`
per tool): the JSON round trip through the storage adapter is assumed
faithful.  The comparator `(a, b) => new Date(b.lastUsedAt).getTime() -
new Date(a.lastUsedAt).getTime()` needs the `Date` parse, which is the
oracle `dateVal`; the engine's stable sort under this comparator is modelled
by `List.insertionSort`, which agrees with it whenever the compared
timestamps are pairwise distinct (the only situation the theorems use). -/

/-- `SessionInfo` of `src/lib/ai-tools-config.ts`. -/
structure SessionInfo where
  sessionId : String
  toolType : AITool
  sandboxId : String
  createdAt : String
  lastUsedAt : String
deriving DecidableEq, Repr

/-- Modelled from the spec: `MAX_SESSIONS` lives in
`@/components/chat/constants`, which is not part of the provided sources; the
spec fixes the cap as "the per-tool collection is capped at 10 records". -/
def MAX_SESSIONS : Nat := 10

/-- Modelled from the spec: `getSessionsKey` also lives in
`@/components/chat/constants`; the spec gives per-tool keys
`sessions:<toolId>`. -/
def getSessionsKey (tool : AITool) : String :=
  "sessions:" ++ tool.id

/-- Descending recency order used by `saveSession`'s sort. -/
def moreRecent (dateVal : String → Int) (a b : SessionInfo) : Prop :=
  dateVal b.lastUsedAt ≤ dateVal a.lastUsedAt

instance (dateVal : String → Int) : DecidableRel (moreRecent dateVal) := fun a b =>
  inferInstanceAs (Decidable (dateVal b.lastUsedAt ≤ dateVal a.lastUsedAt))

/-- `currentSessions.sort((a, b) => getTime(b.lastUsedAt) - getTime(a.lastUsedAt))`. -/
def sortByLastUsedDesc (dateVal : String → Int) (l : List SessionInfo) :
    List SessionInfo :=
  List.insertionSort (moreRecent dateVal) l

/-- The upsert of `saveSession`: replace the record at the `findIndex` hit,
else push at the end. -/
def upsertSession (session : SessionInfo) (current : List SessionInfo) :
    List SessionInfo :=
  match current.findIdx? (fun s => s.sessionId == session.sessionId) with
  | some i => current.set i session
  | none => current ++ [session]

/-- `saveSession` on one tool's list: upsert by `sessionId`, re-sort by
`lastUsedAt` descending, truncate to `MAX_SESSIONS`. -/
def saveSessionList (dateVal : String → Int) (session : SessionInfo)
    (current : List SessionInfo) : List SessionInfo :=
  (sortByLastUsedDesc dateVal (upsertSession session current)).take MAX_SESSIONS

/-- The keyed store (one list per tool, under `getSessionsKey`). -/
def SessionStore := AITool → List SessionInfo

/-- Empty storage: `getSessions` of a missing key returns `[]`. -/
def emptySessionStore : SessionStore := fun _ => []

/-- `getSessions(tool)` at the typed level. -/
def getSessionsList (st : SessionStore) (tool : AITool) : List SessionInfo :=
  st tool

/-- `saveSession(session)`: reads the list of `session.toolType`, saves, and
persists under that tool's key. -/
def saveSessionStore (dateVal : String → Int) (session : SessionInfo)
    (st : SessionStore) : SessionStore := fun t =>
  if t = session.toolType then saveSessionList dateVal session (st session.toolType)
  else st t

/-! ## Browser-side reads tolerating malformed persistence
(`src/hooks/use-session-storage.ts` line 9–17,
`src/hooks/use-sandbox-storage.ts` lines 52–60 and 71–79)

The storage adapter's `getItem` is a map `String → Option String` (`none` =
key absent / `null`); `JSON.parse` is again an oracle where `none` models a
throw, which the sources catch.  The unvalidated `as`-casts of the sources
mean the parsed value is returned as-is, so these reads are modelled as
returning the raw `JSVal` (with the documented defaults `[]` and `null`). -/

/-- `getItem` of the storage adapter. -/
def StorageMap := String → Option String

/-- `getSessions` as executed in the browser: absent or empty value ⇒ `[]`;
parse failure ⇒ `[]`; otherwise the parsed value (cast, unvalidated). -/
def getSessionsRaw (store : StorageMap) (parse : String → Option JSVal)
    (tool : AITool) : JSVal :=
  match store (getSessionsKey tool) with
  | none => .arr []
  | some data =>
      if data == "" then .arr []
      else
        match parse data with
        | none => .arr []
        | some v => v

/-- `getSandboxStorageKey`. -/
def getSandboxStorageKey (sandboxId : String) : String :=
  "sandbox-" ++ sandboxId

/-- `getSandbox(sandboxId)`: absent/empty ⇒ `null`; parse failure ⇒ `null`. -/
def getSandbox (store : StorageMap) (parse : String → Option JSVal)
    (sandboxId : String) : JSVal :=
  match store (getSandboxStorageKey sandboxId) with
  | none => .null
  | some data =>
      if data == "" then .null
      else
        match parse data with
        | none => .null
        | some v => v

/-- `getCreationState()`: the single `'sandbox-creation-state'` slot. -/
def getCreationState (store : StorageMap) (parse : String → Option JSVal) : JSVal :=
  match store "sandbox-creation-state" with
  | none => .null
  | some data =>
      if data == "" then .null
      else
        match parse data with
        | none => .null
        | some v => v

/-! ## Helper lemmas about the setup route -/

/-- The descriptor emitted by a run that got past sandbox creation. -/
def setupInfoOf (b : SetupBody) (w : SetupWorld) (tool : AITool) (sid : String) :
    SandboxInfo :=
  let cfg := getAIToolConfig tool
  let step := runSetupSteps tool cfg (b.apiKey.getD "") (promptOf b)
      b.resumeSession b.sessionId w
  mkInfo sid w.nowIso (toolStrOf b) cfg.displayName (promptOf b)
    b.resumeSession b.sessionId step.vr step.extracted

theorem concat_getLast? (l : List Frame) (a : Frame) : (l ++ [a]).getLast? = some a := by
  simp

/-- The install/verify phase emits only `text-delta` frames. -/
theorem runSetupSteps_noData (tool : AITool) (cfg : AIToolConfig) (apiKey prompt : String)
    (resumeSession : Bool) (sessionId : Option String) (w : SetupWorld) :
    (runSetupSteps tool cfg apiKey prompt resumeSession sessionId w).frames.filterMap
      dataSuccess = [] := by
  unfold runSetupSteps
  cases w.install with
  | error m =>
      simp [dataSuccess, installingFrame, setupErrorFrame]
  | ok ir =>
      cases w.verify with
      | error m =>
          simp [dataSuccess, installingFrame, setupErrorFrame, installResultFrame,
            testingFrame]
      | ok pr =>
          simp [dataSuccess, installingFrame, installResultFrame, testingFrame,
            verifyResultFrame]

/-- Frame/effect shape of a run that passed validation and created a sandbox. -/
theorem setupPOST_ok_shape (b : SetupBody) (w : SetupWorld) (tool : AITool) (sid : String)
    (hAk : apiKeyPresent b = true) (hT : parseAITool (toolStrOf b) = some tool)
    (hC : w.create = .ok sid) :
    framesOf (.ok b) w =
      (headerFrames (getAIToolConfig tool) ++ [createdFrame sid] ++
        (runSetupSteps tool (getAIToolConfig tool) (b.apiKey.getD "") (promptOf b)
          b.resumeSession b.sessionId w).frames ++
        [completeFrame (getAIToolConfig tool)]) ++
      [.data "sandbox-info" (.sandboxOk (setupInfoOf b w tool sid))] ∧
    effectsOf (.ok b) w =
      createEffect ::
        (runSetupSteps tool (getAIToolConfig tool) (b.apiKey.getD "") (promptOf b)
          b.resumeSession b.sessionId w).effects := by
  unfold framesOf effectsOf setupPOST setupInfoOf
  simp [hAk, hT, hC]

/-- Frame/effect shape of a validation-rejected run. -/
theorem setupPOST_rejected_shape (b : SetupBody) (w : SetupWorld)
    (hv : validBody b = false) :
    effectsOf (.ok b) w = [] ∧
    ((framesOf (.ok b) w = [.textDelta "error" "❌ API key is required"] ∧
        apiKeyPresent b = false) ∨
      (framesOf (.ok b) w = [.textDelta "error" "❌ Valid AI tool selection is required"] ∧
        parseAITool (toolStrOf b) = none)) := by
  unfold framesOf effectsOf setupPOST
  cases hAk : apiKeyPresent b with
  | false => simp [hAk]
  | true =>
      cases hT : parseAITool (toolStrOf b) with
      | none => simp [hAk, hT]
      | some tool =>
          exfalso
          rw [validBody, hAk, hT] at hv
          simp at hv

/-! ## Claim C1 -/

/-- C1 counterexample world: the verification command exits with code 1. -/
def c1World : SetupWorld :=
  { create := .ok "sb1"
    install := .ok { exitCode := 0, stdout := "", stderr := "" }
    verify := .ok { exitCode := 1, stdout := "", stderr := "boom" }
    parse := fun _ => none
    nowIso := "2024-01-01T00:00:00.000Z" }

/-- C1 counterexample request. -/
def c1Body : SetupBody :=
  { apiKey := some "k", tool := some "cursor-cli", sessionId := none
    prompt := some "hi", resumeSession := false, aliveTimeMinutes := none }

/-- C1 is false on the code: in `c1World` the verification command exits with
code 1, yet the run's single terminal `data` frame is the `sandbox-info`
`{success:true,...}` frame — not a `{success:false, error}` payload. -/
theorem setup_verify_failure_still_success_frame_cex :
    c1World.verify = .ok { exitCode := 1, stdout := "", stderr := "boom" } ∧
    (framesOf (.ok c1Body) c1World).filterMap dataSuccess = [true] := by
  constructor
  · rfl
  · rfl

/-- C1 (amended): for every run past validation whose sandbox creation
succeeds, the single terminal `data` frame is `sandbox-info` with
`success:true` regardless of the verification exit code; a non-zero exit is
instead recorded inside the descriptor as
`cursorCLI.cursorCLI.error = "<tool> test failed (exit N): <stderr || stdout ||
"no output">"` with `installed = false`, while exit 0 marks
`installed`/`configured` true; no such run also emits a `{success:false}`
frame. -/
theorem setup_terminal_frame_success (b : SetupBody) (w : SetupWorld)
    (tool : AITool) (sid : String)
    (hAk : apiKeyPresent b = true) (hT : parseAITool (toolStrOf b) = some tool)
    (hC : w.create = .ok sid) :
    (framesOf (.ok b) w).filterMap dataSuccess = [true] ∧
    (framesOf (.ok b) w).filterMap frameSandbox = [setupInfoOf b w tool sid] ∧
    (∀ ir pr, w.install = .ok ir → w.verify = .ok pr → pr.exitCode ≠ 0 →
      (setupInfoOf b w tool sid).cursorCLI.cursorCLI.error =
          some (testFailedError (getAIToolConfig tool).displayName pr) ∧
      (setupInfoOf b w tool sid).cursorCLI.cursorCLI.installed = false) ∧
    (∀ ir pr, w.install = .ok ir → w.verify = .ok pr → pr.exitCode = 0 →
      (setupInfoOf b w tool sid).cursorCLI.cursorCLI.installed = true ∧
      (setupInfoOf b w tool sid).cursorCLI.environment.configured = true) := by
  obtain ⟨hF, _hE⟩ := setupPOST_ok_shape b w tool sid hAk hT hC
  refine ⟨?_, ?_, ?_, ?_⟩
  · rw [hF]
    simp [dataSuccess, headerFrames, createdFrame, completeFrame,
      runSetupSteps_noData]
  · rw [hF]
    have hnd := runSetupSteps_noData tool (getAIToolConfig tool) (b.apiKey.getD "")
      (promptOf b) b.resumeSession b.sessionId w
    simp only [List.filterMap_append]
    have : ∀ fr : List Frame, fr.filterMap dataSuccess = [] →
        fr.filterMap frameSandbox = [] := by
      intro fr h
      rw [List.filterMap_eq_nil_iff] at h ⊢
      intro f hf
      have hnone := h f hf
      cases f with
      | textDelta i d => rfl
      | data i p => cases p <;> simp [dataSuccess] at hnone
    rw [this _ hnd]
    simp [frameSandbox, headerFrames, createdFrame, completeFrame]
  · intro ir pr hI hV hne
    unfold setupInfoOf runSetupSteps
    rw [hI, hV]
    have : (pr.exitCode == 0) = false := by
      simpa using hne
    simp [this, mkInfo, vrFailure]
  · intro ir pr hI hV heq
    unfold setupInfoOf runSetupSteps
    rw [hI, hV]
    have : (pr.exitCode == 0) = true := by
      simpa using heq
    simp [this, mkInfo, vrSuccess]

/-- Witness for C1's amended theorem at a concrete failing verification. -/
theorem setup_terminal_frame_success_witness :
    (framesOf (.ok c1Body) c1World).filterMap dataSuccess = [true] ∧
    (setupInfoOf c1Body c1World .cursorCli "sb1").cursorCLI.cursorCLI.error =
      some (testFailedError "Cursor CLI" { exitCode := 1, stdout := "", stderr := "boom" }) := by
  have h := setup_terminal_frame_success c1Body c1World .cursorCli "sb1"
    (by rfl) (by rfl) (by rfl)
  exact ⟨h.1, (h.2.2.1 { exitCode := 0, stdout := "", stderr := "" }
    { exitCode := 1, stdout := "", stderr := "boom" } rfl rfl (by decide)).1⟩

/-! ## Claim C2 -/

/-- C2 counterexample request: the API key is missing. -/
def c2Body : SetupBody :=
  { apiKey := none, tool := some "cursor-cli", sessionId := none
    prompt := none, resumeSession := false, aliveTimeMinutes := none }

/-- A benign world for witnesses/counterexamples (every external call
succeeds). -/
def wDemo : SetupWorld :=
  { create := .ok "sbx-1"
    install := .ok { exitCode := 0, stdout := "", stderr := "" }
    verify := .ok { exitCode := 0, stdout := "", stderr := "" }
    parse := fun _ => none
    nowIso := "2024-01-01T00:00:00.000Z" }

/-- C2 is false on the code: a request rejected for a missing API key emits a
single `text-delta` frame and closes — the stream contains no frame of type
`data` at all, rather than exactly one. -/
theorem setup_rejected_no_data_frame_cex :
    rejectedRequest (.ok c2Body) = true ∧
    framesOf (.ok c2Body) wDemo = [.textDelta "error" "❌ API key is required"] ∧
    (framesOf (.ok c2Body) wDemo).filterMap dataSuccess = [] := by
  exact ⟨rfl, rfl, rfl⟩

/-- C2 (amended): a request rejected at validation (missing/blank API key or
unrecognised tool) emits no `data` frame at all (only a single `text-delta`
error frame); every other request — including a body that fails to parse and
a failing sandbox creation — emits exactly one `data` frame, and that frame is
the last frame of the stream. -/
theorem setup_single_terminal_data_frame (body : Except String SetupBody)
    (w : SetupWorld) :
    (rejectedRequest body = true →
      (framesOf body w).filterMap dataSuccess = [] ∧
      ∃ msg, framesOf body w = [.textDelta "error" msg]) ∧
    (rejectedRequest body = false →
      ∃ pre i p, framesOf body w = pre ++ [Frame.data i p] ∧
        pre.filterMap dataSuccess = []) := by
  constructor
  · intro hrej
    match body with
    | .error m => simp [rejectedRequest] at hrej
    | .ok b =>
        have hv : validBody b = false := by
          simpa [rejectedRequest] using hrej
        obtain ⟨_hE, hF⟩ := setupPOST_rejected_shape b w hv
        rcases hF with ⟨hF, _⟩ | ⟨hF, _⟩ <;>
          exact ⟨by rw [hF]; rfl, ⟨_, hF⟩⟩
  · intro hrej
    match body with
    | .error m =>
        refine ⟨[.textDelta "error"
          ("❌ **Setup failed**: " ++ m ++ "\n\nPlease try again or check your API key.")],
          "error-info", .errorPayload m, ?_, rfl⟩
        rfl
    | .ok b =>
        have hv : validBody b = true := by
          simpa [rejectedRequest] using hrej
        have hparts : apiKeyPresent b = true ∧ (parseAITool (toolStrOf b)).isSome = true := by
          simpa [validBody, Bool.and_eq_true] using hv
        have hAk := hparts.1
        obtain ⟨tool, hT⟩ : ∃ tool, parseAITool (toolStrOf b) = some tool :=
          Option.isSome_iff_exists.mp hparts.2
        cases hC : w.create with
        | error m =>
            refine ⟨headerFrames (getAIToolConfig tool) ++
              [.textDelta "error"
                ("❌ **Setup failed**: " ++ m ++ "\n\nPlease try again or check your API key.")],
              "error-info", .errorPayload m, ?_, ?_⟩
            · unfold framesOf setupPOST
              simp [hAk, hT, hC, outerCatchFrames, headerFrames]
            · simp [dataSuccess, headerFrames]
        | ok sid =>
            obtain ⟨hF, _⟩ := setupPOST_ok_shape b w tool sid hAk hT hC
            refine ⟨_, _, _, hF, ?_⟩
            simp [dataSuccess, headerFrames, createdFrame, completeFrame,
              runSetupSteps_noData]

/-- Witness for C2's amended theorem: a rejected request yields no data frame;
a request whose body fails to parse yields one final data frame. -/
theorem setup_single_terminal_data_frame_witness :
    ((framesOf (.ok c2Body) wDemo).filterMap dataSuccess = [] ∧
      ∃ msg, framesOf (.ok c2Body) wDemo = [.textDelta "error" msg]) ∧
    (∃ pre i p, framesOf (.error "bad json") wDemo = pre ++ [Frame.data i p] ∧
      pre.filterMap dataSuccess = []) := by
  exact ⟨(setup_single_terminal_data_frame (.ok c2Body) wDemo).1 rfl,
    (setup_single_terminal_data_frame (.error "bad json") wDemo).2 rfl⟩

/-! ## Claim C3 -/

/-- The request's API key is missing, `null`, or blank. -/
def apiKeyMissingOrBlank (b : SetupBody) : Bool :=
  !apiKeyPresent b

/-- The request's tool string (after the `"cursor-cli"` destructuring
default) is outside `{"claude-code", "cursor-cli"}`. -/
def toolUnrecognized (b : SetupBody) : Bool :=
  !(parseAITool (toolStrOf b)).isSome

/-- C3: a setup request with a missing/blank API key or an unrecognised tool
is rejected with a validation error frame, and no external effect — in
particular no sandbox creation — is attempted. -/
theorem setup_validation_rejects_before_create (b : SetupBody) (w : SetupWorld)
    (h : apiKeyMissingOrBlank b = true ∨ toolUnrecognized b = true) :
    effectsOf (.ok b) w = [] ∧
    (∀ e ∈ effectsOf (.ok b) w, ∀ v r t, e ≠ Effect.createSandbox v r t) ∧
    ∃ msg, framesOf (.ok b) w = [.textDelta "error" msg] := by
  have hv : validBody b = false := by
    unfold validBody
    rcases h with h | h
    · have : apiKeyPresent b = false := by
        simpa [apiKeyMissingOrBlank] using h
      simp [this]
    · have : (parseAITool (toolStrOf b)).isSome = false := by
        simpa [toolUnrecognized] using h
      simp [this]
  obtain ⟨hE, hF⟩ := setupPOST_rejected_shape b w hv
  refine ⟨hE, ?_, ?_⟩
  · rw [hE]
    intro e he
    simp at he
  · rcases hF with ⟨hF, _⟩ | ⟨hF, _⟩ <;> exact ⟨_, hF⟩

/-- C3 witness request: recognised API key but unknown tool `"vim"`. -/
def c3Body : SetupBody :=
  { apiKey := some "k", tool := some "vim", sessionId := none
    prompt := none, resumeSession := false, aliveTimeMinutes := none }

/-- Witness for C3 at the concrete unknown tool `"vim"`. -/
theorem setup_validation_rejects_before_create_witness :
    effectsOf (.ok c3Body) wDemo = [] ∧
    (∀ e ∈ effectsOf (.ok c3Body) wDemo, ∀ v r t, e ≠ Effect.createSandbox v r t) ∧
    ∃ msg, framesOf (.ok c3Body) wDemo = [.textDelta "error" msg] :=
  setup_validation_rejects_before_create c3Body wDemo (Or.inr (by decide))

/-! ## Claim C4 -/

/-- C4 failing input: a valid request asking for a 10-minute sandbox. -/
def c4Body : SetupBody :=
  { apiKey := some "k", tool := some "claude-code", sessionId := none
    prompt := some "hello", resumeSession := false, aliveTimeMinutes := some 10 }

/-- C4 (code bug): the sandbox resource is created with the fixed timeout
`SANDBOX_ALIVE_TIME_MS` (5 minutes); the request's `aliveTimeMinutes` is never
read by the route and no clamping to `[MIN, MAX]` exists.  At the failing
input `aliveTimeMinutes = 10`, the creation effect carries 300000 ms instead
of the requested (and client-side displayed) 600000 ms. -/
theorem setup_timeout_ignores_aliveTimeMinutes :
    c4Body.aliveTimeMinutes = some 10 ∧
    (effectsOf (.ok c4Body) wDemo).head? =
      some (Effect.createSandbox 2 "node22" SANDBOX_ALIVE_TIME_MS) ∧
    SANDBOX_ALIVE_TIME_MS = 5 * 60 * 1000 ∧
    SANDBOX_ALIVE_TIME_MS ≠ 10 * 60 * 1000 ∧
    MIN_SANDBOX_ALIVE_TIME_MS ≤ 10 * 60 * 1000 ∧ 10 * 60 * 1000 ≤ MAX_SANDBOX_ALIVE_TIME_MS := by
  refine ⟨rfl, rfl, rfl, ?_, by decide, by decide⟩
  decide

/-! ## Claim C5 -/

/-- C5: an install command exiting non-zero is reported as a warning frame and
is not fatal: the verification command is still attempted, and the run still
ends in the single `sandbox-info` success frame. -/
theorem setup_install_failure_nonfatal (b : SetupBody) (w : SetupWorld)
    (tool : AITool) (sid : String) (ir : CmdResult)
    (hAk : apiKeyPresent b = true) (hT : parseAITool (toolStrOf b) = some tool)
    (hC : w.create = .ok sid) (hI : w.install = .ok ir) (hne : ir.exitCode ≠ 0) :
    effectsOf (.ok b) w =
      [createEffect, installEffect (getAIToolConfig tool),
       invokeEffect tool (getAIToolConfig tool) (b.apiKey.getD "")
         b.resumeSession b.sessionId (promptOf b)] ∧
    Frame.textDelta "setup-tasks"
        ("⚠️ **Installation completed with warnings** (exit code: " ++
          toString ir.exitCode ++ ")\n\n") ∈ framesOf (.ok b) w ∧
    (framesOf (.ok b) w).filterMap dataSuccess = [true] := by
  obtain ⟨hF, hE⟩ := setupPOST_ok_shape b w tool sid hAk hT hC
  have hbeq : (ir.exitCode == 0) = false := by
    simpa using hne
  refine ⟨?_, ?_, ?_⟩
  · rw [hE]
    unfold runSetupSteps
    rw [hI]
    cases hV : w.verify <;> simp
  · rw [hF]
    unfold runSetupSteps
    rw [hI]
    cases hV : w.verify with
    | error m =>
        simp [installResultFrame, hbeq]
    | ok pr =>
        simp [installResultFrame, hbeq]
  · rw [hF]
    simp [dataSuccess, headerFrames, createdFrame, completeFrame,
      runSetupSteps_noData]

/-- C5 witness world: install exits 1, verification succeeds. -/
def c5World : SetupWorld :=
  { create := .ok "sb5"
    install := .ok { exitCode := 1, stdout := "", stderr := "npm warn" }
    verify := .ok { exitCode := 0, stdout := "", stderr := "" }
    parse := fun _ => none
    nowIso := "2024-01-01T00:00:00.000Z" }

/-- Witness for C5 at a concrete failing install. -/
theorem setup_install_failure_nonfatal_witness :
    effectsOf (.ok c1Body) c5World =
      [createEffect, installEffect (getAIToolConfig .cursorCli),
       invokeEffect .cursorCli (getAIToolConfig .cursorCli) "k" false none "hi"] ∧
    Frame.textDelta "setup-tasks"
        ("⚠️ **Installation completed with warnings** (exit code: " ++
          toString (1 : Int) ++ ")\n\n") ∈ framesOf (.ok c1Body) c5World ∧
    (framesOf (.ok c1Body) c5World).filterMap dataSuccess = [true] :=
  setup_install_failure_nonfatal c1Body c5World .cursorCli "sb5"
    { exitCode := 1, stdout := "", stderr := "npm warn" }
    rfl rfl rfl rfl (by decide)

/-! ## Claim C6 -/

/-- C6 counterexample request: `resumeSession:true` with the non-null but
empty `sessionId:""`. -/
def c6Body : SetupBody :=
  { apiKey := some "key", tool := some "cursor-cli", sessionId := some ""
    prompt := some "hi", resumeSession := true, aliveTimeMinutes := none }

/-- C6 is false as stated: with `resumeSession:true` and the non-null
`sessionId:""`, the route's truthiness test `resumeSession && sessionId` fails
and the run uses the continue-latest-session arguments, not the
resume-specific-session arguments containing that session id. -/
theorem setup_resume_empty_sessionId_cex :
    c6Body.resumeSession = true ∧
    c6Body.sessionId = some "" ∧
    c6Body.sessionId ≠ none ∧
    effectsOf (.ok c6Body) wDemo =
      [createEffect, installEffect (getAIToolConfig .cursorCli),
       .runCmd "cursor-agent" ["-a", "key", "resume", "--output-format", "json", "-p", "hi"]
         true] ∧
    (["-a", "key", "resume", "--output-format", "json", "-p", "hi"] : List String) ≠
      (getResumeCommand .cursorCli "" ++ ["-p", "hi"]).map
        (fun arg => if arg == "CURSOR_API_KEY_PLACEHOLDER" then "key" else arg) := by
  refine ⟨rfl, rfl, by decide, ?_, by decide⟩
  rfl

/-- C6 (amended): the invocation-shape decision is by truthiness — resume-
specific args (which contain the session id) when `resumeSession` holds and
`sessionId` is non-null *and non-empty*; continue-latest args when
`resumeSession` holds and `sessionId` is null or empty; new-prompt args (with
the `hello` placeholder replaced by the prompt) otherwise — the decided
invocation is the third attempted effect of the run, and the terminal frame's
descriptor satisfies `session.requestedSessionId = sessionId` as submitted. -/
theorem setup_invocation_decision (b : SetupBody) (w : SetupWorld)
    (tool : AITool) (sid : String) (ir : CmdResult)
    (hAk : apiKeyPresent b = true) (hT : parseAITool (toolStrOf b) = some tool)
    (hC : w.create = .ok sid) (hI : w.install = .ok ir) :
    effectsOf (.ok b) w =
      [createEffect, installEffect (getAIToolConfig tool),
       invokeEffect tool (getAIToolConfig tool) (b.apiKey.getD "")
         b.resumeSession b.sessionId (promptOf b)] ∧
    (∀ s, b.resumeSession = true → b.sessionId = some s → s ≠ "" →
      chooseCommandArgs tool b.resumeSession b.sessionId (promptOf b) =
        getResumeCommand tool s ++ ["-p", promptOf b]) ∧
    (b.resumeSession = true → truthyStr b.sessionId = false →
      chooseCommandArgs tool b.resumeSession b.sessionId (promptOf b) =
        getContinueCommand tool ++ ["-p", promptOf b]) ∧
    (b.resumeSession = false →
      chooseCommandArgs tool b.resumeSession b.sessionId (promptOf b) =
        (getAIToolConfig tool).promptCommandArgs.map
          (fun arg => if arg == "hello" then promptOf b else arg)) ∧
    (∀ s : String, s ∈ getResumeCommand tool s) ∧
    ((framesOf (.ok b) w).filterMap frameSandbox).map
        (fun i => i.session.requestedSessionId) = [b.sessionId] := by
  obtain ⟨hF, hE⟩ := setupPOST_ok_shape b w tool sid hAk hT hC
  refine ⟨?_, ?_, ?_, ?_, ?_, ?_⟩
  · rw [hE]
    unfold runSetupSteps
    rw [hI]
    cases hV : w.verify <;> simp
  · intro s hr hs hne
    unfold chooseCommandArgs
    have : truthyStr b.sessionId = true := by
      rw [hs]
      simpa [truthyStr] using hne
    rw [hr, this, hs]
    simp
  · intro hr hs
    unfold chooseCommandArgs
    rw [hr, hs]
    simp
  · intro hr
    unfold chooseCommandArgs
    rw [hr]
    simp
  · intro s
    cases tool <;> simp [getResumeCommand, getAIToolConfig, AI_TOOLS_CONFIG]
  · rw [hF]
    have hnd := runSetupSteps_noData tool (getAIToolConfig tool) (b.apiKey.getD "")
      (promptOf b) b.resumeSession b.sessionId w
    have hsb : ∀ fr : List Frame, fr.filterMap dataSuccess = [] →
        fr.filterMap frameSandbox = [] := by
      intro fr h
      rw [List.filterMap_eq_nil_iff] at h ⊢
      intro f hf
      have hnone := h f hf
      cases f with
      | textDelta i d => rfl
      | data i p => cases p <;> simp [dataSuccess] at hnone
    simp only [List.filterMap_append, hsb _ hnd]
    simp [frameSandbox, headerFrames, createdFrame, completeFrame,
      setupInfoOf, mkInfo]

/-- C6 witness: scenario B — `resumeSession:true, sessionId:"abc123"`. -/
def c6WitnessBody : SetupBody :=
  { apiKey := some "k", tool := some "claude-code", sessionId := some "abc123"
    prompt := some "go", resumeSession := true, aliveTimeMinutes := none }

/-- Witness for C6's amended theorem: the resume form is chosen, its args
contain `"abc123"`, and the descriptor echoes `requestedSessionId = "abc123"`. -/
theorem setup_invocation_decision_witness :
    (∀ s, c6WitnessBody.resumeSession = true → c6WitnessBody.sessionId = some s → s ≠ "" →
      chooseCommandArgs .claudeCode c6WitnessBody.resumeSession c6WitnessBody.sessionId
          (promptOf c6WitnessBody) =
        getResumeCommand .claudeCode s ++ ["-p", promptOf c6WitnessBody]) ∧
    (∀ s : String, s ∈ getResumeCommand .claudeCode s) ∧
    ((framesOf (.ok c6WitnessBody) wDemo).filterMap frameSandbox).map
        (fun i => i.session.requestedSessionId) = [some "abc123"] := by
  have h := setup_invocation_decision c6WitnessBody wDemo .claudeCode "sbx-1"
    { exitCode := 0, stdout := "", stderr := "" } rfl rfl rfl rfl
  exact ⟨h.2.1, h.2.2.2.2.1, h.2.2.2.2.2⟩

/-! ## Claim C7 -/

/-- Re-inject an `extractSessionId` result (a session id string or null) as a
JavaScript value, to study re-application. -/
def optToJS : Option String → JSVal
  | none => .null
  | some s => .str s

/-- A concrete `JSON.parse` oracle for the C7 counterexample, agreeing with
real `JSON.parse` on the one probed string
`{"session_id":7}` (and throwing elsewhere). -/
def demoParse : String → Option JSVal := fun s =>
  if s == "\x7b\"session_id\":7\x7d" then some (.obj [("session_id", .num 7)])
  else none

/-- The C7 counterexample input: an object whose `session_id` field is itself
a JSON-encoded string. -/
def c7Input : JSVal :=
  .obj [("session_id", .str "\x7b\"session_id\":7\x7d")]

/-- C7 is false as stated: `extractSessionId` is not idempotent.  On
`c7Input` it returns the string `{"session_id":7}`; applied again to that
result it returns `"7"`. -/
theorem extractSessionId_not_idempotent_cex :
    claudeExtractSessionId demoParse c7Input = some "\x7b\"session_id\":7\x7d" ∧
    claudeExtractSessionId demoParse (optToJS (claudeExtractSessionId demoParse c7Input)) =
      some "7" ∧
    claudeExtractSessionId demoParse (optToJS (claudeExtractSessionId demoParse c7Input)) ≠
      claudeExtractSessionId demoParse c7Input := by
  refine ⟨rfl, rfl, by decide⟩

/-- C7 (amended): for each registered tool, `extractSessionId` is total — on
any input it returns a session id string or null (it never throws; the only
throwing sub-step, `JSON.parse`, is caught) — and in particular a string that
fails to parse as JSON yields null.  It is, however, not idempotent (see the
counterexample). -/
theorem extractSessionId_total (tool : AITool) (parse : String → Option JSVal)
    (v : JSVal) :
    (extractSessionIdFromResponse tool parse v = none ∨
      ∃ s, extractSessionIdFromResponse tool parse v = some s) ∧
    (∀ raw, parse raw = none →
      extractSessionIdFromResponse tool parse (.str raw) = none) := by
  constructor
  · cases h : extractSessionIdFromResponse tool parse v with
    | none => exact Or.inl rfl
    | some s => exact Or.inr ⟨s, rfl⟩
  · intro raw hraw
    cases tool <;>
      simp [extractSessionIdFromResponse, getAIToolConfig, AI_TOOLS_CONFIG,
        claudeExtractSessionId, cursorExtractSessionId, hraw]

/-- Witness for C7's amended theorem: a raw non-JSON string yields null for
both tools. -/
theorem extractSessionId_total_witness :
    (extractSessionIdFromResponse .claudeCode (fun _ => none) (.str "not json") = none ∨
      ∃ s, extractSessionIdFromResponse .claudeCode (fun _ => none) (.str "not json") = some s) ∧
    extractSessionIdFromResponse .cursorCli (fun _ => none) (.str "not json") = none := by
  exact ⟨(extractSessionId_total .claudeCode (fun _ => none) (.str "not json")).1,
    (extractSessionId_total .cursorCli (fun _ => none) (.str "not json")).2 "not json" rfl⟩

/-! ## Claim C9 -/

/-- Tokens produced by the whitespace tokenizer contain no whitespace
characters. -/
theorem splitAux_noWs :
    ∀ (cs cur : List Char) (flag : Bool), (∀ c ∈ cur, c.isWhitespace = false) →
      ∀ t ∈ splitAux cs cur flag, ∀ c ∈ t.data, c.isWhitespace = false := by
  intro cs
  induction cs with
  | nil =>
      intro cur flag hcur t ht c hc
      cases flag with
      | true =>
          simp [splitAux] at ht
          subst ht
          rw [List.mem_reverse] at hc
          exact hcur c hc
      | false =>
          simp [splitAux] at ht
          subst ht
          simp at hc
  | cons c0 rest ih =>
      intro cur flag hcur t ht c hc
      cases flag with
      | true =>
          rw [splitAux] at ht
          by_cases hw : c0.isWhitespace
          · rw [if_pos hw] at ht
            rcases List.mem_cons.mp ht with h | h
            · subst h
              rw [List.mem_reverse] at hc
              exact hcur c hc
            · exact ih [] false (by simp) t h c hc
          · rw [if_neg hw] at ht
            refine ih (c0 :: cur) true ?_ t ht c hc
            intro x hx
            rcases List.mem_cons.mp hx with h | h
            · subst h
              simpa using hw
            · exact hcur x h
      | false =>
          rw [splitAux] at ht
          by_cases hw : c0.isWhitespace
          · rw [if_pos hw] at ht
            exact ih [] false (by simp) t ht c hc
          · rw [if_neg hw] at ht
            refine ih [c0] true ?_ t ht c hc
            intro x hx
            rcases List.mem_cons.mp hx with h | h
            · subst h
              simpa using hw
            · simp at h

/-- Every token of `s.split(/\s+/)` is whitespace-free. -/
theorem jsSplitWhitespace_noWs (s : String) :
    ∀ t ∈ jsSplitWhitespace s, ∀ c ∈ t.data, c.isWhitespace = false := by
  intro t ht c hc
  unfold jsSplitWhitespace at ht
  rcases hcs : s.toList with _ | ⟨c0, rest⟩ <;> rw [hcs] at ht <;> dsimp only at ht
  · simp at ht
    subst ht
    simp at hc
  · by_cases hw : c0.isWhitespace
    · rw [if_pos hw] at ht
      rcases List.mem_cons.mp ht with h | h
      · subst h
        simp at hc
      · exact splitAux_noWs rest [] false (by simp) t h c hc
    · rw [if_neg hw] at ht
      refine splitAux_noWs rest [c0] true ?_ t ht c hc
      intro x hx
      rcases List.mem_cons.mp hx with h | h
      · subst h
        simpa using hw
      · simp at h

/-- C9: the terminal relay trims the command and splits it on whitespace into
`cmd`/`args`: `"ls -la"` gives `cmd "ls"`, `args ["-la"]`; quoting is not
interpreted — `"echo \"a b\""` gives `args ["\"a", "b\""]`, and no argument of
any command can contain a space (so a quoted `"a b"` grouping cannot be
expressed). -/
theorem terminal_command_split :
    parseCommand "ls -la" = ("ls", ["-la"]) ∧
    parseCommand "echo \"a b\"" = ("echo", ["\"a", "b\""]) ∧
    ("\"a b\"" ∉ (parseCommand "echo \"a b\"").2) ∧
    (∀ s, ∀ t ∈ (parseCommand s).2, ∀ c ∈ t.data, c.isWhitespace = false) := by
  refine ⟨by rfl, by rfl, by decide, ?_⟩
  intro s t ht c hc
  unfold parseCommand at ht
  simp only at ht
  exact jsSplitWhitespace_noWs (jsTrim s) t (List.mem_of_mem_drop ht) c hc

/-- Witness for C9's universally quantified part at the quoted command. -/
theorem terminal_command_split_witness :
    ∀ t ∈ (parseCommand "echo \"a b\"").2, ∀ c ∈ t.data, c.isWhitespace = false :=
  fun t ht c hc => (terminal_command_split).2.2.2 "echo \"a b\"" t ht c hc

/-! ## Claim C10 -/

/-- C10: the browser-side reads are total on malformed persistence: an absent
value, or one on which `JSON.parse` throws, yields `[]` from `getSessions`
and `null` from `getSandbox`/`getCreationState`; being plain functions of the
store, none of these reads can throw. -/
theorem storage_reads_total_on_malformed (store : StorageMap)
    (parse : String → Option JSVal) (tool : AITool) (sandboxId : String) :
    (store (getSessionsKey tool) = none → getSessionsRaw store parse tool = .arr []) ∧
    (∀ d, store (getSessionsKey tool) = some d → parse d = none →
      getSessionsRaw store parse tool = .arr []) ∧
    (store (getSandboxStorageKey sandboxId) = none →
      getSandbox store parse sandboxId = .null) ∧
    (∀ d, store (getSandboxStorageKey sandboxId) = some d → parse d = none →
      getSandbox store parse sandboxId = .null) ∧
    (store "sandbox-creation-state" = none → getCreationState store parse = .null) ∧
    (∀ d, store "sandbox-creation-state" = some d → parse d = none →
      getCreationState store parse = .null) := by
  refine ⟨?_, ?_, ?_, ?_, ?_, ?_⟩
  · intro h
    simp [getSessionsRaw, h]
  · intro d hd hp
    simp [getSessionsRaw, hd, hp]
  · intro h
    simp [getSandbox, h]
  · intro d hd hp
    simp [getSandbox, hd, hp]
  · intro h
    simp [getCreationState, h]
  · intro d hd hp
    simp [getCreationState, hd, hp]

/-- Witness for C10: an empty store, and a store holding a non-JSON value. -/
theorem storage_reads_total_on_malformed_witness :
    getSessionsRaw (fun _ => none) (fun _ => none) .claudeCode = .arr [] ∧
    getSessionsRaw (fun _ => some "not json") (fun _ => none) .claudeCode = .arr [] ∧
    getSandbox (fun _ => none) (fun _ => none) "sb" = .null ∧
    getSandbox (fun _ => some "not json") (fun _ => none) "sb" = .null ∧
    getCreationState (fun _ => none) (fun _ => none) = .null ∧
    getCreationState (fun _ => some "not json") (fun _ => none) = .null := by
  refine ⟨(storage_reads_total_on_malformed _ _ .claudeCode "sb").1 rfl,
    (storage_reads_total_on_malformed _ _ .claudeCode "sb").2.1 "not json" rfl rfl,
    (storage_reads_total_on_malformed (fun _ => none) (fun _ => none) .claudeCode "sb").2.2.1 rfl,
    (storage_reads_total_on_malformed (fun _ => some "not json") (fun _ => none)
      .claudeCode "sb").2.2.2.1 "not json" rfl rfl,
    (storage_reads_total_on_malformed (fun _ => none) (fun _ => none) .claudeCode "sb").2.2.2.2.1 rfl,
    (storage_reads_total_on_malformed (fun _ => some "not json") (fun _ => none)
      .claudeCode "sb").2.2.2.2.2 "not json" rfl rfl⟩

/-! ## Claim C8 -/

/-- The timestamps of the records, viewed through the `Date` oracle, are
pairwise distinct (which makes "the 10 most recently used" well defined and
the comparator-based sort order unique). -/
def distinctTimes (dv : String → Int) (l : List SessionInfo) : Prop :=
  l.Pairwise fun a b => dv a.lastUsedAt ≠ dv b.lastUsedAt

/-- The session ids of the records are pairwise distinct. -/
def distinctIds (l : List SessionInfo) : Prop :=
  l.Pairwise fun a b => a.sessionId ≠ b.sessionId

instance (dv : String → Int) : IsTotal SessionInfo (moreRecent dv) :=
  ⟨fun a b => Int.le_total (dv b.lastUsedAt) (dv a.lastUsedAt)⟩

instance (dv : String → Int) : IsTrans SessionInfo (moreRecent dv) :=
  ⟨fun _ _ _ hab hbc => le_trans hbc hab⟩

theorem sortByLastUsedDesc_perm (dv : String → Int) (l : List SessionInfo) :
    (sortByLastUsedDesc dv l).Perm l :=
  List.perm_insertionSort (moreRecent dv) l

theorem sortByLastUsedDesc_sorted (dv : String → Int) (l : List SessionInfo) :
    (sortByLastUsedDesc dv l).Sorted (moreRecent dv) :=
  List.sorted_insertionSort (moreRecent dv) l

/-- Two sorted permutations of the same records coincide when the sort keys
are pairwise distinct. -/
theorem sorted_perm_distinct_eq (dv : String → Int) :
    ∀ (l₁ l₂ : List SessionInfo), l₁.Perm l₂ →
      l₁.Sorted (moreRecent dv) → l₂.Sorted (moreRecent dv) →
      distinctTimes dv l₁ → l₁ = l₂ := by
  intro l₁
  induction l₁ with
  | nil =>
      intro l₂ hp _ _ _
      have := hp.length_eq
      simp at this
      exact (List.eq_nil_of_length_eq_zero this.symm).symm
  | cons a t₁ ih =>
      intro l₂ hp hs₁ hs₂ hd₁
      cases l₂ with
      | nil =>
          have := hp.length_eq
          simp at this
      | cons b t₂ =>
          have hab : a = b := by
            by_contra hne
            have ha2 : a ∈ b :: t₂ := hp.subset (List.mem_cons_self a t₁)
            have hb1 : b ∈ a :: t₁ := hp.symm.subset (List.mem_cons_self b t₂)
            have hat2 : a ∈ t₂ := by
              rcases List.mem_cons.mp ha2 with h | h
              · exact absurd h hne
              · exact h
            have hbt1 : b ∈ t₁ := by
              rcases List.mem_cons.mp hb1 with h | h
              · exact absurd h.symm hne
              · exact h
            have hr1 : moreRecent dv a b := List.rel_of_sorted_cons hs₁ b hbt1
            have hr2 : moreRecent dv b a := List.rel_of_sorted_cons hs₂ a hat2
            have heq : dv a.lastUsedAt = dv b.lastUsedAt := le_antisymm hr2 hr1
            have hne' : dv a.lastUsedAt ≠ dv b.lastUsedAt :=
              (List.pairwise_cons.mp hd₁).1 b hbt1
            exact hne' heq
          subst hab
          have ht : t₁ = t₂ :=
            ih t₂ hp.cons_inv hs₁.of_cons hs₂.of_cons (List.Pairwise.of_cons hd₁)
          rw [ht]

/-- A fresh session id makes the upsert a push at the end. -/
theorem upsertSession_fresh (x : SessionInfo) (l : List SessionInfo)
    (h : ∀ s ∈ l, (s.sessionId == x.sessionId) = false) :
    upsertSession x l = l ++ [x] := by
  unfold upsertSession
  rw [List.findIdx?_eq_none_iff.mpr h]

/-- An already-present session id makes the upsert a replacement: same
length, and the result is — up to order — the new record plus the old list
with the first record of that id removed. -/
theorem upsertSession_found (x : SessionInfo) :
    ∀ l : List SessionInfo, (∃ s ∈ l, s.sessionId = x.sessionId) →
      (upsertSession x l).length = l.length ∧
      (upsertSession x l).Perm
        (x :: l.eraseP (fun s => s.sessionId == x.sessionId)) := by
  intro l
  induction l with
  | nil =>
      intro h
      simp at h
  | cons a t ih =>
      intro h
      by_cases hpa : (a.sessionId == x.sessionId) = true
      · have hfind : (a :: t).findIdx? (fun s => s.sessionId == x.sessionId) = some 0 := by
          rw [List.findIdx?_cons, if_pos hpa]
        unfold upsertSession
        rw [hfind]
        constructor
        · simp
        · rw [List.eraseP_cons_of_pos (p := fun s => s.sessionId == x.sessionId)
            (l := t) hpa]
          exact List.Perm.refl _
      · have hxt : ∃ s ∈ t, s.sessionId = x.sessionId := by
          rcases h with ⟨s, hs, hsid⟩
          rcases List.mem_cons.mp hs with h' | h'
          · subst h'
            exact absurd (beq_iff_eq.mpr hsid) hpa
          · exact ⟨s, h', hsid⟩
        obtain ⟨i, hi⟩ : ∃ i, t.findIdx? (fun s => s.sessionId == x.sessionId) = some i := by
          cases hfi : t.findIdx? (fun s => s.sessionId == x.sessionId) with
          | none =>
              rcases hxt with ⟨s, hs, hsid⟩
              have := List.findIdx?_eq_none_iff.mp hfi s hs
              rw [beq_iff_eq.mpr hsid] at this
              simp at this
          | some i => exact ⟨i, rfl⟩
        have hfind : (a :: t).findIdx? (fun s => s.sessionId == x.sessionId) =
            some (i + 1) := by
          rw [List.findIdx?_cons, if_neg (by simp [hpa]), List.findIdx?_succ, hi]
          rfl
        have hstep : upsertSession x (a :: t) = a :: upsertSession x t := by
          unfold upsertSession
          rw [hfind, hi]
          rfl
        obtain ⟨ihlen, ihperm⟩ := ih hxt
        rw [hstep, List.eraseP_cons_of_neg (p := fun s => s.sessionId == x.sessionId)
          (l := t) hpa]
        constructor
        · simp [ihlen]
        · exact (ihperm.cons a).trans (List.Perm.swap x a _)

/-- Step lemma: saving a fresh record into an already-sorted list of at most
10 records equals sorting the extended history and truncating. -/
theorem saveSession_fresh_step (dv : String → Int) (p : List SessionInfo)
    (x : SessionInfo) (_hlen : p.length ≤ MAX_SESSIONS)
    (hid : ∀ s ∈ p, (s.sessionId == x.sessionId) = false)
    (hkeys : distinctTimes dv (p ++ [x])) :
    saveSessionList dv x (sortByLastUsedDesc dv p) =
      (sortByLastUsedDesc dv (p ++ [x])).take MAX_SESSIONS := by
  have hid' : ∀ s ∈ sortByLastUsedDesc dv p, (s.sessionId == x.sessionId) = false := by
    intro s hs
    exact hid s ((sortByLastUsedDesc_perm dv p).subset hs)
  unfold saveSessionList
  rw [upsertSession_fresh x _ hid']
  have hperm : (sortByLastUsedDesc dv (sortByLastUsedDesc dv p ++ [x])).Perm
      (sortByLastUsedDesc dv (p ++ [x])) := by
    refine (sortByLastUsedDesc_perm dv _).trans ?_
    refine List.Perm.trans ?_ (sortByLastUsedDesc_perm dv (p ++ [x])).symm
    exact (sortByLastUsedDesc_perm dv p).append_right [x]
  have hdist : distinctTimes dv (sortByLastUsedDesc dv (sortByLastUsedDesc dv p ++ [x])) := by
    unfold distinctTimes
    refine (List.Perm.pairwise_iff ?_ ?_).mpr hkeys
    · intro u v huv
      exact huv.symm
    · exact hperm.trans (sortByLastUsedDesc_perm dv (p ++ [x]))
  have heq : sortByLastUsedDesc dv (sortByLastUsedDesc dv p ++ [x]) =
      sortByLastUsedDesc dv (p ++ [x]) :=
    sorted_perm_distinct_eq dv _ _ hperm
      (sortByLastUsedDesc_sorted dv _) (sortByLastUsedDesc_sorted dv _) hdist
  rw [heq]

/-- Fold invariant: saving at most 10 records with fresh ids and distinct
timestamps yields exactly the sorted history. -/
theorem foldl_save_small (dv : String → Int) :
    ∀ p : List SessionInfo, p.length ≤ MAX_SESSIONS → distinctIds p →
      distinctTimes dv p →
      p.foldl (fun acc r => saveSessionList dv r acc) [] = sortByLastUsedDesc dv p := by
  intro p
  induction p using List.reverseRecOn with
  | nil =>
      intro _ _ _
      rfl
  | append_singleton q x ih =>
      intro hlen hids htimes
      have hqlen : q.length ≤ MAX_SESSIONS := by
        have : q.length + 1 ≤ MAX_SESSIONS := by
          simpa using hlen
        omega
      have hqids : distinctIds q :=
        List.Pairwise.sublist (List.sublist_append_left q [x]) hids
      have hqtimes : distinctTimes dv q :=
        List.Pairwise.sublist (List.sublist_append_left q [x]) htimes
      have hfresh : ∀ s ∈ q, (s.sessionId == x.sessionId) = false := by
        intro s hs
        have h3 := (List.pairwise_append.mp hids).2.2
        have : s.sessionId ≠ x.sessionId := h3 s hs x (List.mem_singleton_self x)
        simpa using this
      rw [List.foldl_append]
      simp only [List.foldl_cons, List.foldl_nil]
      rw [ih hqlen hqids hqtimes]
      rw [saveSession_fresh_step dv q x hqlen hfresh htimes]
      have hall : (sortByLastUsedDesc dv (q ++ [x])).length ≤ MAX_SESSIONS := by
        have : (sortByLastUsedDesc dv (q ++ [x])).length = (q ++ [x]).length :=
          (sortByLastUsedDesc_perm dv (q ++ [x])).length_eq
        rw [this]
        simpa using hlen
      exact List.take_of_length_le hall

/-- The keyed store fold at the saved tool reduces to the per-list fold. -/
theorem store_fold_at_tool (dv : String → Int) (t : AITool) :
    ∀ (rs : List SessionInfo), (∀ r ∈ rs, r.toolType = t) →
      ∀ st : SessionStore,
        (rs.foldl (fun st r => saveSessionStore dv r st) st) t =
          rs.foldl (fun acc r => saveSessionList dv r acc) (st t) := by
  intro rs
  induction rs with
  | nil =>
      intro _ st
      rfl
  | cons r rest ih =>
      intro hall st
      have hrt : r.toolType = t := hall r (List.mem_cons_self r rest)
      have hrest : ∀ x ∈ rest, x.toolType = t := by
        intro x hx
        exact hall x (List.mem_cons_of_mem r hx)
      simp only [List.foldl_cons]
      rw [ih hrest]
      have : saveSessionStore dv r st t = saveSessionList dv r (st t) := by
        unfold saveSessionStore
        rw [hrt]
        simp
      rw [this]

/-- C8: (1) after saving 11 records of one tool with pairwise-distinct session
ids and pairwise-distinct `lastUsedAt` timestamps, that tool's list holds
exactly 10 records, namely the history sorted by `lastUsedAt` descending and
truncated to the 10 most recent; (2) a save whose `sessionId` is already
present replaces that record (same length; the result is the new record plus
the old list minus the record of that id), not an appended duplicate. -/
theorem session_store_cap_and_upsert :
    (∀ (dv : String → Int) (t : AITool) (rs : List SessionInfo),
      rs.length = 11 → (∀ r ∈ rs, r.toolType = t) → distinctIds rs →
      distinctTimes dv rs →
      (getSessionsList
          (rs.foldl (fun st r => saveSessionStore dv r st) emptySessionStore) t).length
            = 10 ∧
      getSessionsList
          (rs.foldl (fun st r => saveSessionStore dv r st) emptySessionStore) t =
        (sortByLastUsedDesc dv rs).take MAX_SESSIONS) ∧
    (∀ (dv : String → Int) (x : SessionInfo) (l : List SessionInfo),
      l.length ≤ MAX_SESSIONS → (∃ s ∈ l, s.sessionId = x.sessionId) →
      (saveSessionList dv x l).length = l.length ∧
      (saveSessionList dv x l).Perm
        (x :: l.eraseP (fun s => s.sessionId == x.sessionId))) := by
  constructor
  · intro dv t rs hlen hall hids htimes
    rcases rs.eq_nil_or_concat with hnil | ⟨q, x, hqx⟩
    · rw [hnil] at hlen
      simp at hlen
    subst hqx
    have hq10 : q.length = 10 := by
      have : q.length + 1 = 11 := by
        simpa [List.concat_eq_append] using hlen
      omega
    have hfold : getSessionsList
        ((q.concat x).foldl (fun st r => saveSessionStore dv r st) emptySessionStore) t =
        (q.concat x).foldl (fun acc r => saveSessionList dv r acc) [] := by
      unfold getSessionsList
      exact store_fold_at_tool dv t (q.concat x) hall emptySessionStore
    rw [List.concat_eq_append] at hfold hids htimes hall ⊢
    have hqids : distinctIds q :=
      List.Pairwise.sublist (List.sublist_append_left q [x]) hids
    have hqtimes : distinctTimes dv q :=
      List.Pairwise.sublist (List.sublist_append_left q [x]) htimes
    have hfresh : ∀ s ∈ q, (s.sessionId == x.sessionId) = false := by
      intro s hs
      have h3 := (List.pairwise_append.mp hids).2.2
      have : s.sessionId ≠ x.sessionId := h3 s hs x (List.mem_singleton_self x)
      simpa using this
    have hmain : getSessionsList
        ((q ++ [x]).foldl (fun st r => saveSessionStore dv r st) emptySessionStore) t =
        (sortByLastUsedDesc dv (q ++ [x])).take MAX_SESSIONS := by
      rw [hfold, List.foldl_append]
      simp only [List.foldl_cons, List.foldl_nil]
      rw [foldl_save_small dv q (by rw [hq10]; rfl) hqids hqtimes]
      exact saveSession_fresh_step dv q x (by rw [hq10]; rfl) hfresh htimes
    refine ⟨?_, hmain⟩
    rw [hmain]
    rw [List.length_take]
    have : (sortByLastUsedDesc dv (q ++ [x])).length = 11 := by
      rw [(sortByLastUsedDesc_perm dv (q ++ [x])).length_eq]
      simp [hq10]
    rw [this]
    rfl
  · intro dv x l hlen hfound
    obtain ⟨hulen, huperm⟩ := upsertSession_found x l hfound
    unfold saveSessionList
    have hslen : (sortByLastUsedDesc dv (upsertSession x l)).length = l.length := by
      rw [(sortByLastUsedDesc_perm dv _).length_eq, hulen]
    have htake : (sortByLastUsedDesc dv (upsertSession x l)).take MAX_SESSIONS =
        sortByLastUsedDesc dv (upsertSession x l) := by
      refine List.take_of_length_le ?_
      rw [hslen]
      exact hlen
    rw [htake]
    constructor
    · exact hslen
    · exact (sortByLastUsedDesc_perm dv _).trans huperm

/-- A concrete record for the C8 witness. -/
def mkRec (sid : String) (lu : String) : SessionInfo :=
  { sessionId := sid, toolType := .claudeCode, sandboxId := "sb"
    createdAt := "c", lastUsedAt := lu }

/-- Eleven records with distinct ids and distinct timestamp lengths (the
witness `Date` oracle reads a timestamp's length). -/
def c8Records : List SessionInfo :=
  [mkRec "s01" "1", mkRec "s02" "22", mkRec "s03" "333", mkRec "s04" "4444",
   mkRec "s05" "55555", mkRec "s06" "666666", mkRec "s07" "7777777",
   mkRec "s08" "88888888", mkRec "s09" "999999999", mkRec "s10" "aaaaaaaaaa",
   mkRec "s11" "bbbbbbbbbbb"]

/-- The witness `Date` oracle. -/
def c8DateVal : String → Int := fun s => (s.length : Int)

/-- Witness for C8 at eleven concrete saves (and one concrete upsert). -/
theorem session_store_cap_and_upsert_witness :
    ((getSessionsList
        (c8Records.foldl (fun st r => saveSessionStore c8DateVal r st)
          emptySessionStore) .claudeCode).length = 10 ∧
      getSessionsList
        (c8Records.foldl (fun st r => saveSessionStore c8DateVal r st)
          emptySessionStore) .claudeCode =
        (sortByLastUsedDesc c8DateVal c8Records).take MAX_SESSIONS) ∧
    ((saveSessionList c8DateVal (mkRec "s01" "333") [mkRec "s01" "1", mkRec "s02" "22"]).length
        = 2 ∧
      (saveSessionList c8DateVal (mkRec "s01" "333")
          [mkRec "s01" "1", mkRec "s02" "22"]).Perm
        (mkRec "s01" "333" ::
          ([mkRec "s01" "1", mkRec "s02" "22"].eraseP
            (fun s => s.sessionId == "s01")))) := by
  constructor
  · exact (session_store_cap_and_upsert.1 c8DateVal .claudeCode c8Records
      (by decide) (by decide) (by unfold distinctIds; decide)
      (by unfold distinctTimes; decide))
  · exact (session_store_cap_and_upsert.2 c8DateVal (mkRec "s01" "333")
      [mkRec "s01" "1", mkRec "s02" "22"] (by decide) ⟨mkRec "s01" "1", by decide, rfl⟩)
